import Mathlib

/-!
Verification of the compliance-agent workflow core: the routing state machine
(`main.py`), the validation policy (`step4_validate_response.py`), the retrieval
post-filter (`step2_retrieve_documents.py`), the profile store
(`user_profile.py` / `schemas/profile.py`), the hybrid memory scorer
(`memory/custom_manager.py`), and the conversation-storage step
(`step7_store_conversation.py`).  Python functions are embedded shallowly:
numbers are `Nat`/`Int`/`Rat`, fallible code returns `Except`.
-/

namespace ComplianceAgent

/-! ### Routing after validation (`main.py`, `route_after_validation`) -/

/-- The two decision strings that request a loop-back. -/
def isLoopDecision (decision : String) : Bool :=
  decision == "loop_to_intent" || decision == "loop_to_retrieval"

/-- `route_after_validation` from `main.py`: reads `validation_decision` and the
current `loop_count`, increments the counter on a loop request, and emits the
edge label consumed by the conditional edges of the graph.  Returns the updated
`loop_count` together with the label. -/
def route_after_validation (decision : String) (loop_count : Nat) : Nat × String :=
  if isLoopDecision decision then
    if loop_count + 1 > 2 then (loop_count + 1, "max_loops_reached")
    else (loop_count + 1, decision)
  else (loop_count, "continue")

/-- The conditional-edge map registered in `create_agent_graph`: routes each
label emitted by `route_after_validation` to the next node. -/
def routeTarget (label : String) : String :=
  if label == "continue" then "generate_followups"
  else if label == "loop_to_intent" then "analyze_intent"
  else if label == "loop_to_retrieval" then "retrieve_documents"
  else if label == "max_loops_reached" then "generate_followups"
  else "invalid"

/-- One run's validation cycle: given the sequence of `validation_decision`
values produced by the successive validation passes, fold
`route_after_validation` starting from the given `loop_count`; the cycle ends
as soon as the emitted label is not a loop label (the graph then proceeds to
`generate_followups`).  Returns the final `loop_count`. -/
def runValidationLoop (decisions : List String) (loop_count : Nat) : Nat :=
  match decisions with
  | [] => loop_count
  | d :: rest =>
    if isLoopDecision (route_after_validation d loop_count).2 then
      runValidationLoop rest (route_after_validation d loop_count).1
    else (route_after_validation d loop_count).1

theorem route_after_validation_mono (d : String) (lc : Nat) :
    lc ≤ (route_after_validation d lc).1 := by
  unfold route_after_validation
  split
  · split <;> simp
  · simp

theorem runValidationLoop_mono (ds : List String) (lc : Nat) :
    lc ≤ runValidationLoop ds lc := by
  induction ds generalizing lc with
  | nil => simp [runValidationLoop]
  | cons d rest ih =>
    unfold runValidationLoop
    split
    · exact le_trans (route_after_validation_mono d lc) (ih _)
    · exact route_after_validation_mono d lc

theorem route_after_validation_loop_label (d : String) (lc : Nat)
    (h : isLoopDecision (route_after_validation d lc).2 = true) :
    (route_after_validation d lc).1 ≤ 2 := by
  unfold route_after_validation at *
  split_ifs at * with h1 h2
  · simp [isLoopDecision] at h
  · omega
  · simp [isLoopDecision] at h

theorem route_after_validation_bound (d : String) (lc : Nat) (h : lc ≤ 2) :
    (route_after_validation d lc).1 ≤ 3 := by
  unfold route_after_validation
  split_ifs <;> simp <;> omega

theorem runValidationLoop_bound (ds : List String) (lc : Nat) (h : lc ≤ 2) :
    runValidationLoop ds lc ≤ 3 := by
  induction ds generalizing lc with
  | nil => simpa [runValidationLoop] using le_trans h (by omega)
  | cons d rest ih =>
    unfold runValidationLoop
    split
    · exact ih _ (route_after_validation_loop_label d lc (by assumption))
    · exact route_after_validation_bound d lc h

theorem route_after_validation_forced (d : String) (lc : Nat)
    (h : 2 < (route_after_validation d lc).1) :
    routeTarget (route_after_validation d lc).2 = "generate_followups" := by
  unfold route_after_validation at *
  split_ifs at * <;> first | rfl | omega

/-- C1, counterexample: three consecutive loop requests drive the state's
`loop_count` to 3, so "loop_count never exceeds 2" fails on the code — the
counter is incremented before the `> 2` guard fires. -/
theorem C1_counterexample :
    2 < runValidationLoop ["loop_to_intent", "loop_to_intent", "loop_to_intent"] 0 := by
  decide

/-- C1, amended: across any sequence of validation decisions, `loop_count`
only increases and never exceeds 3 (so at most two loop-backs are executed);
whenever it exceeds 2 the emitted label is routed to `generate_followups`
(the follow-ups stage) regardless of the citation-quality tier behind the
decision. -/
theorem C1_loop_bound_amended :
    (∀ d lc, lc ≤ (route_after_validation d lc).1)
    ∧ (∀ ds lc, lc ≤ runValidationLoop ds lc)
    ∧ (∀ ds, runValidationLoop ds 0 ≤ 3)
    ∧ (∀ d lc, 2 < (route_after_validation d lc).1 →
        routeTarget (route_after_validation d lc).2 = "generate_followups") :=
  ⟨route_after_validation_mono, runValidationLoop_mono,
   fun ds => runValidationLoop_bound ds 0 (by omega),
   route_after_validation_forced⟩

theorem C1_loop_bound_amended_witness :
    2 < (route_after_validation "loop_to_retrieval" 2).1
    ∧ routeTarget (route_after_validation "loop_to_retrieval" 2).2 = "generate_followups" :=
  ⟨by decide, C1_loop_bound_amended.2.2.2 "loop_to_retrieval" 2 (by decide)⟩

/-! ### Validation routing decision (`step4_validate_response.py`, lines 115-164) -/

/-- `quality_order.get(q, 0)` from `step_4_validate_response`. -/
def quality_order (q : String) : Nat :=
  if q == "Poor" then 0
  else if q == "Fair" then 1
  else if q == "Good" then 2
  else if q == "Excellent" then 3
  else 0

/-- Python's `str.lower()` (character-wise, matching CPython on ASCII). -/
def pyLower (s : String) : String := ⟨s.data.map Char.toLower⟩

/-- Does the first character list start with the second? -/
def listStartsWith : List Char → List Char → Bool
  | _, [] => true
  | [], _ :: _ => false
  | c :: cs, d :: ds => c == d && listStartsWith cs ds

/-- Substring occurrence over character lists. -/
def containsSubList : List Char → List Char → Bool
  | [], pat => pat.isEmpty
  | c :: rest, pat => listStartsWith (c :: rest) pat || containsSubList rest pat

/-- Python's `pat in s` substring test. -/
def containsSub (s pat : String) : Bool :=
  containsSubList s.data pat.data

/-- The inputs read by the routing portion of `step_4_validate_response`. -/
structure ValidationRouteInput where
  citation_quality : String
  previous_quality : String
  loop_count : Nat
  chunk_count : Nat
  validation_notes : String
  unsupported_claims : List String

/-- The routing decision computed at the end of `step_4_validate_response`
(lines 119-161): the value stored into `validation_decision`. -/
def validationRouteDecision (i : ValidationRouteInput) : String :=
  if i.citation_quality == "Poor" || i.citation_quality == "Fair" then
    if i.chunk_count == 0 then "continue"
    else if i.citation_quality == i.previous_quality && i.previous_quality != "" then "continue"
    else if i.loop_count > 0
        && !(if i.previous_quality != "" then
              decide (quality_order i.citation_quality > quality_order i.previous_quality)
             else false) then "continue"
    else if containsSub (pyLower i.validation_notes) "missing" || i.unsupported_claims.isEmpty then
      "loop_to_intent"
    else "loop_to_retrieval"
  else "continue"

/-- The four citation-quality tiers. -/
inductive Tier where
  | Poor
  | Fair
  | Good
  | Excellent
deriving DecidableEq

/-- The tier ordinal {Poor:0, Fair:1, Good:2, Excellent:3}. -/
def Tier.ord : Tier → Nat
  | .Poor => 0
  | .Fair => 1
  | .Good => 2
  | .Excellent => 3

/-- The string stored in the state for each tier. -/
def Tier.str : Tier → String
  | .Poor => "Poor"
  | .Fair => "Fair"
  | .Good => "Good"
  | .Excellent => "Excellent"

/-- `previous_citation_quality` as a string: empty before the first pass. -/
def prevStr : Option Tier → String
  | none => ""
  | some t => t.str

/-- The routing rule exactly as the claim states it, as an ordered guard list
over typed tiers: Good/Excellent continue; zero chunks continue; same tier as
previous continue; non-first attempt without ordinal improvement continue;
notes mentioning missing information or an empty unsupported-claims list loop
to intent; otherwise loop to retrieval. -/
def specRouteDecision (tier : Tier) (prev : Option Tier) (loop_count chunk_count : Nat)
    (notes : String) (unsupported : List String) : String :=
  if tier = Tier.Good ∨ tier = Tier.Excellent then "continue"
  else if chunk_count = 0 then "continue"
  else if prev = some tier then "continue"
  else if 0 < loop_count ∧ tier.ord ≤ ((prev.map Tier.ord).getD 0) then "continue"
  else if containsSub (pyLower notes) "missing" = true ∨ unsupported = [] then "loop_to_intent"
  else "loop_to_retrieval"

/-- C3: the routing decision of `step_4_validate_response` evaluates its guards
in exactly the claimed order — Good/Excellent continue, then the no-documents
guard, then the stalled-tier guard, then the regression guard, then
missing-info/no-unsupported-claims to intent, else to retrieval — stated as an
equivalence with the typed guard list `specRouteDecision`, for every reachable
pass (a pass with `loop_count > 0` always has a recorded previous tier).
Scenario A: zero chunks with tier `Fair` yields `continue`, and routing a
`continue` decision leaves `loop_count` at 0. -/
theorem C3_routing_guard_order :
    (∀ (t : Tier) (prev : Option Tier) (lc cc : Nat) (notes : String) (uns : List String),
      (0 < lc → prev ≠ none) →
      validationRouteDecision ⟨t.str, prevStr prev, lc, cc, notes, uns⟩
        = specRouteDecision t prev lc cc notes uns)
    ∧ (∀ notes uns, validationRouteDecision ⟨"Fair", "", 0, 0, notes, uns⟩ = "continue")
    ∧ route_after_validation "continue" 0 = (0, "continue") := by
  refine ⟨?_, ?_, by decide⟩
  · intro t prev lc cc notes uns h
    rcases prev with _ | p
    · have hlc : lc = 0 := by
        by_contra hne
        exact (h (Nat.pos_of_ne_zero hne)) rfl
      subst hlc
      cases t <;>
        simp [validationRouteDecision, specRouteDecision, Tier.str, Tier.ord,
          quality_order, prevStr, List.isEmpty_iff]
    · cases t <;> cases p <;>
        simp [validationRouteDecision, specRouteDecision, Tier.str, Tier.ord,
          quality_order, prevStr, List.isEmpty_iff]
  · intro notes uns
    simp [validationRouteDecision]

theorem C3_routing_guard_order_witness :
    validationRouteDecision ⟨"Fair", "Poor", 1, 4, "citations sparse", ["claim one"]⟩
      = specRouteDecision Tier.Fair (some Tier.Poor) 1 4 "citations sparse" ["claim one"] :=
  C3_routing_guard_order.1 Tier.Fair (some Tier.Poor) 1 4 "citations sparse" ["claim one"]
    (fun _ => by decide)

/-! ### Stage error isolation (`main.py`, `_wrap_with_error_handling`) -/

/-- The slice of `AgentState` (from `state.py`) read or written by the error
wrapper and by `step_7_store_conversation`. -/
structure AgentState where
  intermediate_steps : List String
  validation_decision : String
  citation_quality : String
  validation_notes : String
  human_approved : Bool
  human_feedback : String
  conversation_stored : Bool
  conversation_id : String
  skip_memory : Bool

/-- `_wrap_with_error_handling` from `main.py`: a raising step (modelled as an
`Except` value) is downgraded to a diagnostic entry appended to
`intermediate_steps`, validation and approval failures additionally set safe
defaults, and the (possibly degraded) state is returned so the graph follows
the next edge. -/
def _wrap_with_error_handling (step : AgentState → Except String AgentState)
    (step_name : String) (state : AgentState) : AgentState :=
  match step state with
  | .ok s => s
  | .error e =>
    let s1 := { state with
      intermediate_steps :=
        state.intermediate_steps ++ ["Error in " ++ step_name ++ ": " ++ e.take 100] }
    let s2 :=
      if step_name == "Response Validation" then
        { s1 with validation_decision := "continue", citation_quality := "Unknown",
                  validation_notes := "Validation failed: " ++ e }
      else s1
    if step_name == "Human Approval" then
      { s2 with human_approved := false, human_feedback := "Error during approval: " ++ e }
    else s2

/-- C5: a stage failure never aborts the run — the wrapper catches it, appends
exactly one diagnostic entry to `intermediate_steps`, and returns a state (so
the machine takes its next edge); a Response Validation failure defaults
`validation_decision` to `continue` and `citation_quality` to `Unknown`, and a
Human Approval failure sets `human_approved := false` with the error recorded
in `human_feedback`; a non-raising stage passes its result through unchanged. -/
theorem C5_stage_error_isolation :
    (∀ step name state e, step state = Except.error e →
      (_wrap_with_error_handling step name state).intermediate_steps
        = state.intermediate_steps ++ ["Error in " ++ name ++ ": " ++ e.take 100])
    ∧ (∀ step state e, step state = Except.error e →
        (_wrap_with_error_handling step "Response Validation" state).validation_decision
          = "continue"
        ∧ (_wrap_with_error_handling step "Response Validation" state).citation_quality
          = "Unknown")
    ∧ (∀ step state e, step state = Except.error e →
        (_wrap_with_error_handling step "Human Approval" state).human_approved = false
        ∧ (_wrap_with_error_handling step "Human Approval" state).human_feedback
          = "Error during approval: " ++ e)
    ∧ (∀ step name state s, step state = Except.ok s →
        _wrap_with_error_handling step name state = s) := by
  refine ⟨?_, ?_, ?_, ?_⟩
  · intro step name state e h
    unfold _wrap_with_error_handling
    rw [h]
    split_ifs <;> rfl
  · intro step state e h
    unfold _wrap_with_error_handling
    rw [h]
    exact ⟨rfl, rfl⟩
  · intro step state e h
    unfold _wrap_with_error_handling
    rw [h]
    exact ⟨rfl, rfl⟩
  · intro step name state s h
    unfold _wrap_with_error_handling
    rw [h]

/-- A concrete initial state, used to instantiate witnesses. -/
def exampleState : AgentState where
  intermediate_steps := []
  validation_decision := "continue"
  citation_quality := ""
  validation_notes := ""
  human_approved := false
  human_feedback := ""
  conversation_stored := false
  conversation_id := ""
  skip_memory := false

theorem C5_stage_error_isolation_witness :
    (_wrap_with_error_handling (fun _ => Except.error "boom") "Response Validation"
      exampleState).validation_decision = "continue"
    ∧ (_wrap_with_error_handling (fun _ => Except.error "boom") "Response Validation"
      exampleState).citation_quality = "Unknown" :=
  C5_stage_error_isolation.2.1 (fun _ => Except.error "boom") exampleState "boom" rfl

/-! ### Entry precondition (`main.py`, `query_agent`, lines 184-185) -/

/-- Python `str.isspace` for the ASCII whitespace characters stripped by
`str.strip()`. -/
def isPySpace (c : Char) : Bool :=
  c == ' ' || c == '\t' || c == '\n' || c == '\r' || c == '\x0b' || c == '\x0c'

/-- Python `str.strip()`: drop whitespace from both ends. -/
def pyStrip (s : String) : String :=
  ⟨((s.data.dropWhile isPySpace).reverse.dropWhile isPySpace).reverse⟩

/-- The entry of `query_agent`: the only pre-flight check, raising
`ValueError` before the graph is even created; on success every stage runs
(abstracted as `run_stages`). -/
def query_agent (user_query : String) (run_stages : String → AgentState) :
    Except String AgentState :=
  if user_query == "" || (pyStrip user_query).length < 5 then
    Except.error "Query must be at least 5 characters long"
  else Except.ok (run_stages user_query)

/-- C6: `query_agent` raises before any stage executes exactly when the query
is empty or its whitespace-trimmed length is below 5; any query meeting the
precondition reaches the staged run unchanged (no stage is skipped by this
check). -/
theorem C6_entry_precondition :
    (∀ q run, (∃ e, query_agent q run = Except.error e)
      ↔ (q = "" ∨ (pyStrip q).length < 5))
    ∧ (∀ q run, query_agent q run = Except.ok (run q)
      ↔ ¬(q = "" ∨ (pyStrip q).length < 5)) := by
  constructor
  · intro q run
    unfold query_agent
    split_ifs with h <;>
      simp only [Bool.or_eq_true, beq_iff_eq, decide_eq_true_eq] at h
    · exact iff_of_true ⟨_, rfl⟩ h
    · exact iff_of_false (by simp) h
  · intro q run
    unfold query_agent
    split_ifs with h <;>
      simp only [Bool.or_eq_true, beq_iff_eq, decide_eq_true_eq] at h
    · exact iff_of_false (by simp) (not_not_intro h)
    · exact iff_of_true rfl h

/-! ### Profile store (`schemas/profile.py`, `user_profile.py`) -/

/-- Python-level failures surfaced by the embedded code. -/
inductive PyError where
  | attributeError
  | unboundLocal
deriving DecidableEq

/-- `PersonalInfo` exactly as declared in `schemas/profile.py`: every field is
`Optional[str]` — a single scalar value, not a list. -/
structure PersonalInfo where
  name : Option String := none
  role : Option String := none
  company : Option String := none
  location : Option String := none
  industry : Option String := none

/-- `getattr(personal_info, field, default)`: `some` the field's value when the
attribute exists, `none` when it does not. -/
def PersonalInfo.getField (p : PersonalInfo) (field : String) :
    Option (Option String) :=
  if field == "name" then some p.name
  else if field == "role" then some p.role
  else if field == "company" then some p.company
  else if field == "location" then some p.location
  else if field == "industry" then some p.industry
  else none

/-- Write back a personal-info field by name. -/
def PersonalInfo.setField (p : PersonalInfo) (field : String) (v : Option String) :
    PersonalInfo :=
  if field == "name" then { p with name := v }
  else if field == "role" then { p with role := v }
  else if field == "company" then { p with company := v }
  else if field == "location" then { p with location := v }
  else if field == "industry" then { p with industry := v }
  else p

/-- `Preference` from `schemas/profile.py` (confidence as an exact rational;
`occurrences` defaults to 1). -/
structure Preference where
  preference_type : String
  value : String
  confidence : ℚ
  occurrences : Nat

/-- `Expertise` from `schemas/profile.py`. -/
structure Expertise where
  domain : String
  skill_level : String
  context : String

/-- `UserProfile` from `schemas/profile.py` (timestamps elided). -/
structure UserProfile where
  personal_info : PersonalInfo
  preferences : List Preference
  expertise : List Expertise

/-- `ExtractedFact` from `schemas/profile.py`. -/
structure ExtractedFact where
  category : String
  field : String
  value : String
  confidence : ℚ
  source_context : String

/-- Python's `'x'` quoting as it appears in f-string reprs. -/
def pyQuote (s : String) : String := "\x27" ++ s ++ "\x27"

/-- `add_personal_info_value` from `user_profile.py`, acting on one field's
value.  Since the schema stores each field as `Optional[str]`:
`None or []` and `"" or []` produce a fresh local list, which is appended to
and then discarded (the field keeps its old value, the function reports
`True`); a non-empty string is iterated character by character for the
case-insensitive membership test and then `.append` raises `AttributeError`.
Returns the field's new value together with the reported `added` flag. -/
def add_personal_info_value (field_value : Option String) (value : String) :
    Except PyError (Option String × Bool) :=
  match field_value with
  | none => Except.ok (none, true)
  | some s =>
    if s = "" then Except.ok (some "", true)
    else if s.data.any (fun c => pyLower (String.singleton c) = pyLower value) then
      Except.ok (some s, false)
    else Except.error PyError.attributeError

/-- `add_or_update_preference` from `user_profile.py`: the first entry with a
matching `preference_type` has its value overwritten, its confidence bumped by
0.1 capped at 1.0, and its occurrence count incremented; with no match a new
entry with the stated confidence and occurrence count 1 is appended. -/
def add_or_update_preference (prefs : List Preference) (preference_type value : String)
    (confidence : ℚ) : List Preference :=
  match prefs with
  | [] =>
    [{ preference_type := preference_type, value := value,
       confidence := confidence, occurrences := 1 }]
  | pref :: rest =>
    if pref.preference_type = preference_type then
      { pref with value := value, confidence := min 1 (pref.confidence + 1/10),
                  occurrences := pref.occurrences + 1 } :: rest
    else pref :: add_or_update_preference rest preference_type value confidence

/-- `add_or_update_expertise` from `user_profile.py`: match by domain
case-insensitively; on a match overwrite the skill level and, when the new
context is non-empty (truthy), the context; otherwise append a new entry. -/
def add_or_update_expertise (exps : List Expertise) (domain skill_level context : String) :
    List Expertise :=
  match exps with
  | [] => [{ domain := domain, skill_level := skill_level, context := context }]
  | exp :: rest =>
    if pyLower exp.domain = pyLower domain then
      { exp with skill_level := skill_level,
                 context := if context ≠ "" then context else exp.context } :: rest
    else exp :: add_or_update_expertise rest domain skill_level context

/-- Python `value.split(":", 1)`: split at the first colon only. -/
def splitOnceColon (v : String) : Option (String × String) :=
  match v.splitOn ":" with
  | [] => none
  | [_] => none
  | x :: rest => some (x, String.intercalate ":" rest)

/-- One iteration of the loop in `apply_extracted_facts` from
`user_profile.py`, applying a single fact to the profile.  Returns the updated
profile with the `updated` and `conflicts` entries this fact contributes; the
`AttributeError` raised by `add_personal_info_value` on a populated scalar
field propagates. -/
def applyFact (p : UserProfile) (fact : ExtractedFact) :
    Except PyError (UserProfile × List String × List String) :=
  if fact.category = "personal_info" then
    match p.personal_info.getField fact.field with
    | none =>
      -- getattr default `[]`: empty and falsy, so no conflict; `hasattr` then
      -- fails inside add_personal_info_value, which reports added=False.
      Except.ok (p, [], [])
    | some fv =>
      let conflicts :=
        match fv with
        | none => []      -- None is falsy: `if current_values and is_new` skips
        | some s =>
          if s = "" then []  -- empty string is falsy too
          else if s.data.any (fun c => pyLower (String.singleton c) = pyLower fact.value) then
            []             -- is_new is False
          else
            [fact.field ++ ": existing " ++ s ++ " + new " ++ pyQuote fact.value]
      match add_personal_info_value fv fact.value with
      | Except.error e => Except.error e
      | Except.ok (fv2, added) =>
        Except.ok (⟨p.personal_info.setField fact.field fv2, p.preferences, p.expertise⟩,
          if added then ["personal_info." ++ fact.field ++ " += " ++ fact.value] else [],
          conflicts)
  else if fact.category = "preference" then
    Except.ok (⟨p.personal_info,
        add_or_update_preference p.preferences fact.field fact.value fact.confidence,
        p.expertise⟩,
      ["preference: " ++ fact.field ++ " = " ++ fact.value], [])
  else if fact.category = "expertise" then
    let sl_ctx :=
      match splitOnceColon fact.value with
      | some (a, b) => (pyStrip a, pyStrip b)
      | none => ("intermediate", fact.value)
    Except.ok (⟨p.personal_info, p.preferences,
        add_or_update_expertise p.expertise fact.field sl_ctx.1 sl_ctx.2⟩,
      ["expertise: " ++ fact.field ++ " (" ++ sl_ctx.1 ++ ")"], [])
  else
    Except.ok (p, [], [])

/-- `apply_extracted_facts` from `user_profile.py`: fold `applyFact` over the
fact list, accumulating the `updated` and `conflicts` lists; an uncaught
Python exception aborts the whole call. -/
def apply_extracted_facts (p : UserProfile) (facts : List ExtractedFact) :
    Except PyError (UserProfile × List String × List String) :=
  match facts with
  | [] => Except.ok (p, [], [])
  | fact :: rest =>
    match applyFact p fact with
    | Except.error e => Except.error e
    | Except.ok (p2, upd, conf) =>
      match apply_extracted_facts p2 rest with
      | Except.error e => Except.error e
      | Except.ok (p3, upds, confs) => Except.ok (p3, upd ++ upds, conf ++ confs)

/-- A profile whose company field holds the scalar string `"Microsoft"` — the
only way the schema (`Optional[str]`) can hold a company at all. -/
def profMicrosoft : UserProfile := ⟨{ company := some "Microsoft" }, [], []⟩

/-- A fresh profile with no company recorded. -/
def profNoCompany : UserProfile := ⟨{}, [], []⟩

/-- The personal-info fact of Scenario B. -/
def factGoogle : ExtractedFact :=
  ⟨"personal_info", "company", "Google", 9/10, "I work at Google"⟩

/-- C2: the claimed scenario is impossible on the code.  `schemas/profile.py`
declares `company: Optional[str]` (a scalar), while `user_profile.py` treats
the field as a list.  With the company already `"Microsoft"`, applying the
Google fact reaches `current_values.append(...)` on a `str` and raises
`AttributeError` — no conflict record `"company: existing ['Microsoft'] + new
'Google'"` is ever returned and no value is appended.  With an empty company
field the appended value lands in a fresh local list that is discarded, so the
profile is unchanged even though the fact is reported as applied. -/
theorem C2_personal_info_code_bug :
    apply_extracted_facts profMicrosoft [factGoogle] = Except.error PyError.attributeError
    ∧ apply_extracted_facts profNoCompany [factGoogle]
        = Except.ok (profNoCompany, ["personal_info.company += Google"], []) := by
  constructor <;> rfl

theorem add_or_update_preference_update (pre : List Preference) (p : Preference)
    (post : List Preference) (ptype v : String) (c : ℚ)
    (hpre : ∀ q ∈ pre, q.preference_type ≠ ptype) (hp : p.preference_type = ptype) :
    add_or_update_preference (pre ++ p :: post) ptype v c
      = pre ++ { p with value := v, confidence := min 1 (p.confidence + 1/10),
                        occurrences := p.occurrences + 1 } :: post := by
  induction pre with
  | nil => simp [add_or_update_preference, hp]
  | cons q pre ih =>
    have hq : q.preference_type ≠ ptype := hpre q (by simp)
    simp [add_or_update_preference, hq, ih (fun r hr => hpre r (by simp [hr]))]

theorem add_or_update_preference_insert (prefs : List Preference) (ptype v : String)
    (c : ℚ) (h : ∀ q ∈ prefs, q.preference_type ≠ ptype) :
    add_or_update_preference prefs ptype v c
      = prefs ++ [{ preference_type := ptype, value := v, confidence := c,
                    occurrences := 1 }] := by
  induction prefs with
  | nil => simp [add_or_update_preference]
  | cons q prefs ih =>
    have hq : q.preference_type ≠ ptype := h q (by simp)
    simp [add_or_update_preference, hq, ih (fun r hr => h r (by simp [hr]))]

theorem add_or_update_preference_cap (prefs : List Preference) (ptype v : String)
    (c : ℚ) (hc : c ≤ 1) (h : ∀ q ∈ prefs, q.confidence ≤ 1) :
    ∀ q ∈ add_or_update_preference prefs ptype v c, q.confidence ≤ 1 := by
  induction prefs with
  | nil =>
    intro q hq
    simp [add_or_update_preference] at hq
    simp [hq, hc]
  | cons r prefs ih =>
    intro q hq
    unfold add_or_update_preference at hq
    split_ifs at hq with hr
    · rcases List.mem_cons.1 hq with h1 | h1
      · subst h1
        exact min_le_left _ _
      · exact h q (List.mem_cons_of_mem _ h1)
    · rcases List.mem_cons.1 hq with h1 | h1
      · subst h1
        exact h q (by simp)
      · exact ih (fun s hs => h s (List.mem_cons_of_mem _ hs)) q h1

theorem add_or_update_preference_countP (pre : List Preference) (p : Preference)
    (post : List Preference) (ptype v : String) (c : ℚ)
    (hpre : ∀ q ∈ pre, q.preference_type ≠ ptype) (hp : p.preference_type = ptype) :
    List.countP (fun q => q.preference_type == ptype)
        (add_or_update_preference (pre ++ p :: post) ptype v c)
      = List.countP (fun q => q.preference_type == ptype) (pre ++ p :: post) := by
  rw [add_or_update_preference_update pre p post ptype v c hpre hp]
  simp [List.countP_append, List.countP_cons]

theorem add_or_update_preference_twice (pre : List Preference) (p : Preference)
    (post : List Preference) (ptype v : String) (c : ℚ)
    (hpre : ∀ q ∈ pre, q.preference_type ≠ ptype) (hp : p.preference_type = ptype) :
    add_or_update_preference (add_or_update_preference (pre ++ p :: post) ptype v c)
        ptype v c
      = pre ++ { p with value := v,
                        confidence := min 1 (min 1 (p.confidence + 1/10) + 1/10),
                        occurrences := p.occurrences + 2 } :: post := by
  rw [add_or_update_preference_update pre p post ptype v c hpre hp,
    add_or_update_preference_update pre
      { p with value := v, confidence := min 1 (p.confidence + 1/10),
               occurrences := p.occurrences + 1 }
      post ptype v c hpre hp]

/-- C7: applying a `(type, value)` preference fact updates the first entry with
that type in place — occurrence count +1, value overwritten, confidence bumped
by 0.1 and capped at 1.0 — so applying it twice adds 2 to the count without
creating a duplicate entry (the count of entries with that type is unchanged),
and a preference type not yet present inserts exactly one new entry carrying
the stated confidence. -/
theorem C7_preference_update :
    (∀ (pre : List Preference) (p : Preference) (post : List Preference)
        (ptype v : String) (c : ℚ),
      (∀ q ∈ pre, q.preference_type ≠ ptype) → p.preference_type = ptype →
      add_or_update_preference (pre ++ p :: post) ptype v c
        = pre ++ { p with value := v, confidence := min 1 (p.confidence + 1/10),
                          occurrences := p.occurrences + 1 } :: post)
    ∧ (∀ (pre : List Preference) (p : Preference) (post : List Preference)
        (ptype v : String) (c : ℚ),
      (∀ q ∈ pre, q.preference_type ≠ ptype) → p.preference_type = ptype →
      add_or_update_preference (add_or_update_preference (pre ++ p :: post) ptype v c)
          ptype v c
        = pre ++ { p with value := v,
                          confidence := min 1 (min 1 (p.confidence + 1/10) + 1/10),
                          occurrences := p.occurrences + 2 } :: post)
    ∧ (∀ (pre : List Preference) (p : Preference) (post : List Preference)
        (ptype v : String) (c : ℚ),
      (∀ q ∈ pre, q.preference_type ≠ ptype) → p.preference_type = ptype →
      List.countP (fun q => q.preference_type == ptype)
          (add_or_update_preference (pre ++ p :: post) ptype v c)
        = List.countP (fun q => q.preference_type == ptype) (pre ++ p :: post))
    ∧ (∀ (prefs : List Preference) (ptype v : String) (c : ℚ),
      (∀ q ∈ prefs, q.preference_type ≠ ptype) →
      add_or_update_preference prefs ptype v c
        = prefs ++ [{ preference_type := ptype, value := v, confidence := c,
                      occurrences := 1 }])
    ∧ (∀ (prefs : List Preference) (ptype v : String) (c : ℚ),
      c ≤ 1 → (∀ q ∈ prefs, q.confidence ≤ 1) →
      ∀ q ∈ add_or_update_preference prefs ptype v c, q.confidence ≤ 1) :=
  ⟨add_or_update_preference_update, add_or_update_preference_twice,
   add_or_update_preference_countP, add_or_update_preference_insert,
   add_or_update_preference_cap⟩

theorem C7_preference_update_witness :
    add_or_update_preference [⟨"detail_level", "brief", 1/2, 1⟩] "detail_level"
        "detailed" (4/5)
      = [⟨"detail_level", "detailed", min 1 (1/2 + 1/10), 2⟩] :=
  C7_preference_update.1 [] ⟨"detail_level", "brief", 1/2, 1⟩ [] "detail_level"
    "detailed" (4/5) (by simp) rfl

/-! ### Retrieval post-filter (`step2_retrieve_documents.py`, lines 55-73) -/

/-- A document as returned by the vector store (content plus metadata). -/
structure RawDoc where
  page_content : String
  source : String
  page : String

/-- The `chunk_info` dict built per retained result. -/
structure ChunkInfo where
  content : String
  source : String
  page : String
  rank : Nat
  relevance_score : ℚ

/-- The fixed relevance floor (`min_score_threshold = 0.3`). -/
def min_score_threshold : ℚ := 3/10

/-- The filter loop of `step_2_retrieve_documents` over
`enumerate(zip(results, scores))` starting at index `i`: skip any pair whose
score is below the floor, otherwise build a chunk row carrying its pre-filter
rank `i + 1` and its score. -/
def buildChunksFrom (i : Nat) : List RawDoc → List ℚ → List ChunkInfo
  | [], _ => []
  | _ :: _, [] => []
  | d :: ds, s :: ss =>
    if s < min_score_threshold then buildChunksFrom (i + 1) ds ss
    else ⟨d.page_content, d.source, d.page, i + 1, s⟩ :: buildChunksFrom (i + 1) ds ss

/-- The `retrieved_chunks` list built by the filter loop. -/
def buildChunks (docs : List RawDoc) (scores : List ℚ) : List ChunkInfo :=
  buildChunksFrom 0 docs scores

/-- The pair of state fields written by the retrieval stage:
`retrieved_chunks` and `retrieval_scores = scores[:len(retrieved_chunks)]`. -/
def step_2_outputs (docs : List RawDoc) (scores : List ℚ) :
    List ChunkInfo × List ℚ :=
  (buildChunks docs scores, scores.take (buildChunks docs scores).length)

/-- C4, counterexample: with candidate scores `[0.2, 0.9]` the first candidate
is dropped by the floor, so the single retained chunk carries score 0.9 while
`retrieval_scores` — a prefix of the *raw* score list — holds `[0.2]`: the
0-th score does not equal the 0-th chunk's `relevance_score` (and is itself
below the floor). -/
theorem C4_counterexample :
    ((step_2_outputs [⟨"a", "doc1", "1"⟩, ⟨"b", "doc2", "2"⟩] [1/5, 9/10]).2.head?
        = some (1/5))
    ∧ (((step_2_outputs [⟨"a", "doc1", "1"⟩, ⟨"b", "doc2", "2"⟩] [1/5, 9/10]).1.head?.map
        ChunkInfo.relevance_score) = some (9/10))
    ∧ (1/5 : ℚ) ≠ 9/10 := by
  have h1 : ((5:ℚ)⁻¹ < min_score_threshold) := by norm_num [min_score_threshold]
  have h2 : ¬((9:ℚ)/10 < min_score_threshold) := by norm_num [min_score_threshold]
  refine ⟨?_, ?_, by norm_num⟩ <;>
    simp [step_2_outputs, buildChunks, buildChunksFrom, h1, h2]

theorem buildChunksFrom_length_le (i : Nat) (docs : List RawDoc) (scores : List ℚ) :
    (buildChunksFrom i docs scores).length ≤ scores.length := by
  induction docs generalizing i scores with
  | nil => simp [buildChunksFrom]
  | cons d ds ih =>
    cases scores with
    | nil => simp [buildChunksFrom]
    | cons s ss =>
      unfold buildChunksFrom
      split_ifs
      · exact le_trans (ih (i + 1) ss) (by simp)
      · simpa using ih (i + 1) ss

theorem buildChunksFrom_score_floor (i : Nat) (docs : List RawDoc) (scores : List ℚ) :
    ∀ c ∈ buildChunksFrom i docs scores, min_score_threshold ≤ c.relevance_score := by
  induction docs generalizing i scores with
  | nil => simp [buildChunksFrom]
  | cons d ds ih =>
    cases scores with
    | nil => simp [buildChunksFrom]
    | cons s ss =>
      intro c hc
      unfold buildChunksFrom at hc
      split_ifs at hc with hs
      · exact ih (i + 1) ss c hc
      · rcases List.mem_cons.1 hc with h1 | h1
        · subst h1
          exact not_lt.1 hs
        · exact ih (i + 1) ss c h1

/-- C4, amended: every retained chunk's `relevance_score` is at least the 0.3
floor, and `retrieval_scores` has exactly the length of `retrieved_chunks` —
but it is the length-truncated prefix of the *raw* candidate score list, so
its i-th entry matches the i-th chunk only when no below-floor candidate
precedes a retained one (it may even contain scores below the floor, as the
counterexample shows). -/
theorem C4_retrieval_filter_amended (docs : List RawDoc) (scores : List ℚ) :
    (∀ c ∈ (step_2_outputs docs scores).1, min_score_threshold ≤ c.relevance_score)
    ∧ (step_2_outputs docs scores).2.length = (step_2_outputs docs scores).1.length
    ∧ (step_2_outputs docs scores).2
        = scores.take (step_2_outputs docs scores).1.length := by
  refine ⟨?_, ?_, rfl⟩
  · exact buildChunksFrom_score_floor 0 docs scores
  · simp only [step_2_outputs, List.length_take]
    exact min_eq_left (buildChunksFrom_length_le 0 docs scores)

theorem C4_retrieval_filter_amended_witness :
    min_score_threshold ≤ (ChunkInfo.mk "b" "doc2" "2" 2 (9/10)).relevance_score :=
  (C4_retrieval_filter_amended [⟨"a", "doc1", "1"⟩, ⟨"b", "doc2", "2"⟩]
      [1/5, 9/10]).1 ⟨"b", "doc2", "2", 2, 9/10⟩ (by
    have h1 : ((5:ℚ)⁻¹ < min_score_threshold) := by norm_num [min_score_threshold]
    have h2 : ¬((9:ℚ)/10 < min_score_threshold) := by norm_num [min_score_threshold]
    simp [step_2_outputs, buildChunks, buildChunksFrom, h1, h2])

/-! ### Hybrid memory scoring (`memory/custom_manager.py`,
`retrieve_relevant_memories`, lines 91-153) -/

/-- The default weights of `retrieve_relevant_memories`. -/
def relevance_weight : ℚ := 1/2

def recency_weight : ℚ := 3/10

def importance_weight : ℚ := 1/5

/-- `hybrid = relevance*0.5 + recency*0.3 + importance*0.2`. -/
def hybrid_score (relevance recency importance : ℚ) : ℚ :=
  relevance * relevance_weight + recency * recency_weight
    + importance * importance_weight

/-- `recency_score = max(0, 1 - days_old/30)`. -/
def recency_score (days_old : ℤ) : ℚ :=
  max 0 (1 - (days_old : ℚ) / 30)

/-- `{"Excellent": 1.0, "Good": 0.8, "Fair": 0.6, "Poor": 0.4}.get(q, 0.5)`. -/
def importance_score (quality : String) : ℚ :=
  if quality == "Excellent" then 1
  else if quality == "Good" then 4/5
  else if quality == "Fair" then 3/5
  else if quality == "Poor" then 2/5
  else 1/2

/-- One semantic-memory search hit: its similarity relevance, its age in days
(from the stored timestamp) and the `citation_quality` metadata tag. -/
structure MemoryCandidate where
  relevance_score : ℚ
  days_old : ℤ
  citation_quality : String

/-- The scored-memory dict (only the fields the claims speak about). -/
structure ScoredMemory where
  relevance_score : ℚ
  hybrid_score : ℚ

/-- Score one candidate the way the loop body does. -/
def scoreMemory (m : MemoryCandidate) : ScoredMemory :=
  ⟨m.relevance_score,
   hybrid_score m.relevance_score (recency_score m.days_old)
     (importance_score m.citation_quality)⟩

/-- The descending comparison used by `sort(key=..., reverse=True)`. -/
def hybridGE (a b : ScoredMemory) : Bool :=
  decide (b.hybrid_score ≤ a.hybrid_score)

/-- `retrieve_relevant_memories`: score every hit, sort by hybrid score
descending (Python's stable sort keeps the earlier element on ties, which is
`mergeSort` with the non-strict comparison), and keep the first `k`. -/
def retrieve_relevant_memories (results : List MemoryCandidate) (k : Nat) :
    List ScoredMemory :=
  if results.isEmpty then []
  else ((results.map scoreMemory).mergeSort hybridGE).take k

theorem hybrid_score_bounds (r rec imp : ℚ) (hr0 : 0 ≤ r) (hr1 : r ≤ 1)
    (hrec0 : 0 ≤ rec) (hrec1 : rec ≤ 1) (himp0 : 0 ≤ imp) (himp1 : imp ≤ 1) :
    0 ≤ hybrid_score r rec imp ∧ hybrid_score r rec imp ≤ 1 := by
  unfold hybrid_score relevance_weight recency_weight importance_weight
  constructor <;> nlinarith

theorem retrieve_relevant_memories_sorted (results : List MemoryCandidate) (k : Nat) :
    (retrieve_relevant_memories results k).Pairwise
      (fun a b => b.hybrid_score ≤ a.hybrid_score) := by
  unfold retrieve_relevant_memories
  split_ifs
  · exact List.Pairwise.nil
  · refine List.Pairwise.sublist (List.take_sublist _ _) ?_
    have htrans : ∀ a b c : ScoredMemory,
        hybridGE a b = true → hybridGE b c = true → hybridGE a c = true := by
      intro a b c h1 h2
      simp only [hybridGE, decide_eq_true_eq] at *
      exact le_trans h2 h1
    have htot : ∀ a b : ScoredMemory, (hybridGE a b || hybridGE b a) = true := by
      intro a b
      simpa [hybridGE] using le_total b.hybrid_score a.hybrid_score
    have hs := List.sorted_mergeSort htrans htot (results.map scoreMemory)
    exact hs.imp (fun h => by simpa [hybridGE] using h)

theorem retrieve_relevant_memories_mem (results : List MemoryCandidate) (k : Nat)
    (m : ScoredMemory) (hm : m ∈ retrieve_relevant_memories results k) :
    ∃ c ∈ results, m = scoreMemory c := by
  unfold retrieve_relevant_memories at hm
  split_ifs at hm
  · simp at hm
  · have h1 : m ∈ (results.map scoreMemory).mergeSort hybridGE :=
      List.mem_of_mem_take hm
    have h2 : m ∈ results.map scoreMemory :=
      (List.mergeSort_perm _ _).mem_iff.1 h1
    obtain ⟨c, hc, rfl⟩ := List.mem_map.1 h2
    exact ⟨c, hc, rfl⟩

/-- C8: the hybrid score of components each in [0,1] lies in [0,1]; the
recency component is nonnegative, is 1 at age 0, at most 1 for any
nonnegative age, exactly 0 from 30 days on, and antitone in age; the
importance component maps Excellent/Good/Fair/Poor to 1.0/0.8/0.6/0.4 and
anything else to 0.5; and the memory retriever returns memories sorted in
descending hybrid-score order, each scored from a search hit by the hybrid
formula. -/
theorem C8_hybrid_memory_scoring :
    (∀ r rec imp : ℚ, 0 ≤ r → r ≤ 1 → 0 ≤ rec → rec ≤ 1 → 0 ≤ imp → imp ≤ 1 →
      0 ≤ hybrid_score r rec imp ∧ hybrid_score r rec imp ≤ 1)
    ∧ (∀ d : ℤ, 0 ≤ recency_score d ∧ (0 ≤ d → recency_score d ≤ 1)
        ∧ (30 ≤ d → recency_score d = 0)
        ∧ (∀ e : ℤ, d ≤ e → recency_score e ≤ recency_score d))
    ∧ recency_score 0 = 1
    ∧ (importance_score "Excellent" = 1 ∧ importance_score "Good" = 4/5
        ∧ importance_score "Fair" = 3/5 ∧ importance_score "Poor" = 2/5
        ∧ ∀ q : String, q ∉ (["Excellent", "Good", "Fair", "Poor"] : List String) →
            importance_score q = 1/2)
    ∧ (∀ results k, (retrieve_relevant_memories results k).Pairwise
        (fun a b => b.hybrid_score ≤ a.hybrid_score))
    ∧ (∀ results k m, m ∈ retrieve_relevant_memories results k →
        ∃ c ∈ results, m = scoreMemory c) := by
  refine ⟨hybrid_score_bounds, ?_, ?_, ⟨rfl, rfl, rfl, rfl, ?_⟩,
    retrieve_relevant_memories_sorted, retrieve_relevant_memories_mem⟩
  · intro d
    refine ⟨le_max_left _ _, ?_, ?_, ?_⟩
    · intro hd
      have : ((d : ℚ)) / 30 ≥ 0 := by positivity
      unfold recency_score
      rw [max_le_iff]
      constructor <;> linarith
    · intro hd
      have h30 : (30 : ℚ) ≤ (d : ℚ) := by exact_mod_cast hd
      unfold recency_score
      rw [max_eq_left]
      nlinarith
    · intro e hde
      have hde' : (d : ℚ) ≤ (e : ℚ) := by exact_mod_cast hde
      unfold recency_score
      apply max_le_max le_rfl
      have : (d : ℚ) / 30 ≤ (e : ℚ) / 30 := by linarith
      linarith
  · unfold recency_score
    norm_num
  · intro q hq
    simp only [List.mem_cons, List.mem_singleton, not_or] at hq
    obtain ⟨h1, h2, h3, h4, -⟩ := hq
    simp [importance_score, h1, h2, h3, h4]

theorem C8_hybrid_memory_scoring_witness :
    0 ≤ hybrid_score (1/2) (1/2) (1/2) ∧ hybrid_score (1/2) (1/2) (1/2) ≤ 1 :=
  C8_hybrid_memory_scoring.1 (1/2) (1/2) (1/2) (by norm_num) (by norm_num)
    (by norm_num) (by norm_num) (by norm_num) (by norm_num)

/-! ### Validation fallback heuristic (`step4_validate_response.py`,
lines 67-105) -/

/-- The conversational keywords tested against the lowered query. -/
def conversational_keywords : List String :=
  ["what did we", "tell me about", "do you remember", "what do you know",
   "our conversation"]

/-- The heuristic fallback inside the `except` block of
`step_4_validate_response`.  The `citation_count` it computes first feeds only
the later `elif` branches; the third guard reads the local `no_documents`,
which is assigned only at line 128 of the function — *after* the `try/except`
— so evaluating that guard inside the `except` block raises
`UnboundLocalError`, making every branch from that point on unreachable. -/
def validation_fallback (structured_answer : String) (retrieved_chunks_count : Nat)
    (user_query : String) : Except PyError (String × String × List String) :=
  let answer_length := structured_answer.length
  let is_conversational :=
    conversational_keywords.any fun kw => containsSub (pyLower user_query) kw
  let is_json_output :=
    listStartsWith (pyStrip structured_answer).data "\x7b".data
      || containsSub structured_answer "\"title\":"
  if is_json_output then
    Except.ok ("Poor",
      "Answer is in JSON format instead of formatted text - needs regeneration",
      ["Entire answer is JSON formatted"])
  else if is_conversational && answer_length > 100 then
    Except.ok ("Good",
      "Conversational query answered from memory (no document citations needed)",
      [])
  else
    Except.error PyError.unboundLocal

set_option maxRecDepth 4000 in
/-- C9: the fallback does **not** always assign a tier — exactly in the case
the claim singles out (an answer neither JSON-like nor conversational-long)
it raises `UnboundLocalError`, because `no_documents` is read before its
assignment; the two earlier guards do return tiers. -/
theorem C9_fallback_code_bug :
    validation_fallback "The NIST AI RMF is a voluntary framework." 0
        "What is the NIST AI Risk Management Framework?"
      = Except.error PyError.unboundLocal
    ∧ validation_fallback "\x7b \"title\": \"NIST AI RMF\" \x7d" 3
        "What is the NIST AI RMF?"
      = Except.ok ("Poor",
          "Answer is in JSON format instead of formatted text - needs regeneration",
          ["Entire answer is JSON formatted"])
    ∧ validation_fallback
        (String.mk (List.replicate 120 'a')) 2 "tell me about our last chat"
      = Except.ok ("Good",
          "Conversational query answered from memory (no document citations needed)",
          []) := by
  refine ⟨rfl, rfl, rfl⟩

/-! ### Storing the conversation (`step7_store_conversation.py`,
`memory/custom_manager.py`, `memory/mem0_manager.py`) -/

/-- `CustomMemoryManager.store_conversation`: `"failed_init"` when ChromaDB
never initialized, the hash-derived conversation id on success, `"error"`
when `add_documents` raises. -/
def custom_store_conversation (semantic_memory_ok add_documents_ok : Bool)
    (conv_id : String) : String :=
  if !semantic_memory_ok then "failed_init"
  else if add_documents_ok then conv_id
  else "error"

/-- `Mem0MemoryManager.store_conversation`: `"failed_client_init"` when the
client never initialized, `"stored"` on success, `"error"` when `add`
raises. -/
def mem0_store_conversation (client_ok add_ok : Bool) : String :=
  if !client_ok then "failed_client_init"
  else if add_ok then "stored"
  else "error"

/-- `step_7_store_conversation`: skip (stored=False, empty id) unless a
memory manager is present, `skip_memory` is off and the exchange was
approved; otherwise set `conversation_stored := True` unconditionally and
record whatever string the backend returned as `conversation_id`. -/
def step_7_store_conversation (memory_manager_present : Bool)
    (store_result : String) (state : AgentState) : AgentState :=
  if !memory_manager_present || state.skip_memory || !state.human_approved then
    { state with conversation_stored := false, conversation_id := "" }
  else
    { state with conversation_stored := true, conversation_id := store_result }

/-- C10: with a memory manager present, `skip_memory` false and
`human_approved` true, the store stage sets `conversation_stored := True` no
matter what the backend returned — backend failure is observable only through
`conversation_id` holding one of the sentinels `"failed_init"`,
`"failed_client_init"` or `"error"` instead of a real identifier. -/
theorem C10_store_conversation :
    (∀ (store_result : String) (state : AgentState),
      state.skip_memory = false → state.human_approved = true →
      (step_7_store_conversation true store_result state).conversation_stored = true
      ∧ (step_7_store_conversation true store_result state).conversation_id
        = store_result)
    ∧ (∀ b cid, custom_store_conversation false b cid = "failed_init")
    ∧ (∀ cid, custom_store_conversation true false cid = "error")
    ∧ (∀ cid, custom_store_conversation true true cid = cid)
    ∧ (∀ b, mem0_store_conversation false b = "failed_client_init")
    ∧ mem0_store_conversation true false = "error" := by
  refine ⟨?_, fun b cid => rfl, fun cid => rfl, fun cid => rfl, fun b => rfl, rfl⟩
  intro store_result state hskip happr
  constructor <;> simp [step_7_store_conversation, hskip, happr]

theorem C10_store_conversation_witness :
    (step_7_store_conversation true "error"
      { exampleState with human_approved := true }).conversation_stored = true
    ∧ (step_7_store_conversation true "error"
      { exampleState with human_approved := true }).conversation_id = "error" :=
  C10_store_conversation.1 "error" { exampleState with human_approved := true }
    rfl rfl

end ComplianceAgent
